import Mathlib

/-!
Shallow embedding of the OmniTiles DWM tag firmware (`src/dwm_tag/src/main.c`),
a BLE-to-SPI bridge: BLE data is queued and delivered to the STM32 over SPI,
frames received over SPI are inspected for telemetry, enriched with UWB ranging
distances, and relayed back over BLE (NUS) under a rate limit with failure
backoff.  Machine integers are modelled as `Nat` with explicit `% 2 ^ 32`
(uint32) and `% 256` (uint8) where the C code truncates.
-/

/-- A byte, modelled as `Nat`; values produced by the code are kept below 256
by explicit `% 256` where the C performs uint8 truncation. -/
abbrev Byte := Nat

/-- A 128-byte SPI frame (`SPI_BUF_SIZE`), as a function from index to byte. -/
abbrev Frame := Fin 128 → Byte

/-- The all-zero frame (the tx buffer after `memset(tx_buffer, 0, SPI_BUF_SIZE)`). -/
def zeroFrame : Frame := fun _ => 0

def CMD_START_BYTE : Byte := 0xA5
def CMD_M1_BRAKE : Byte := 0x32
def CMD_M2_BRAKE : Byte := 0x42
def NUS_SEND_INTERVAL_MS : Nat := 50
def NUS_SEND_BACKOFF_MS : Nat := 3000
def MSGQ_CAPACITY : Nat := 32

/-- The frame written by the failsafe substitution in `main`: M1 brake command
`{0xA5, 0x32, 0x32}`, then M2 brake command `{0xA5, 0x42, 0x42}`, then
`memset(tx_buffer + 6, 0, SPI_BUF_SIZE - 6)`. -/
def brakeFrame : Frame := fun i =>
  if i.val = 0 then CMD_START_BYTE
  else if i.val = 1 then CMD_M1_BRAKE
  else if i.val = 2 then CMD_M1_BRAKE
  else if i.val = 3 then CMD_START_BYTE
  else if i.val = 4 then CMD_M2_BRAKE
  else if i.val = 5 then CMD_M2_BRAKE
  else 0

/-- uint32 subtraction `a - b` with wraparound, as the C `now - last_nus_send_ms`
computes on `uint32_t` operands. -/
def u32sub (a b : Nat) : Nat := (a % 2 ^ 32 + (2 ^ 32 - b % 2 ^ 32)) % 2 ^ 32

/-- The bridge state: the message queue `ble_msgq`, the peer reference
`current_conn` (connection identity abstracted to a `Nat` id), the two failsafe
latches, the NUS rate-limiter timestamps, and the DRDY line level. -/
structure BridgeState where
  msgq : List Frame
  currentConn : Option Nat
  sendBrakeOnDisconnect : Bool
  sendBrakeOnQueueFull : Bool
  lastNusSendMs : Nat
  nusSendBackoffUntilMs : Nat
  drdy : Bool

/-- Observable actions of one bridge-loop iteration, in program order. -/
inductive Event where
  | drdySet (b : Bool)
  | spiStart (tx : Frame)
  | warnChecksum
  | nusSend (msg : List Byte)
  | warnSpi

/-- Observable actions of the `disconnected` callback, in program order. -/
inductive DiscEvent where
  | armLatch
  | clearRef
  | clearBackoff
  | submitAdv
deriving DecidableEq

/-- `bt_receive_cb`: truncate/zero-pad the BLE payload to `SPI_BUF_SIZE`
(memcpy of `min(len, SPI_BUF_SIZE)` bytes, then memset of the tail). -/
def padFrame (data : List Byte) : Frame := fun i => data.getD i.val 0

/-- `bt_receive_cb`: `k_msgq_put(&ble_msgq, temp_buf, K_NO_WAIT)` appends when
the queue has room; on failure (full queue) the payload is dropped and
`send_brake_on_queue_full` is set. -/
def bt_receive_cb (s : BridgeState) (data : List Byte) : BridgeState :=
  if s.msgq.length < MSGQ_CAPACITY then { s with msgq := s.msgq ++ [padFrame data] }
  else { s with sendBrakeOnQueueFull := true }

/-- `connected`: on error the callback returns; otherwise the connection is
referenced and stored in `current_conn`. -/
def connected (s : BridgeState) (conn : Nat) (err : Nat) : BridgeState :=
  if err ≠ 0 then s else { s with currentConn := some conn }

/-- `disconnected`: when the disconnecting connection is the current one, in
program order: `send_brake_on_disconnect = true`, `bt_conn_unref` and
`current_conn = NULL`, `nus_send_backoff_until_ms = 0`; then in every case
`k_work_submit(&adv_work)` restarts advertising.  Returns the new state and
the ordered trace of those actions. -/
def disconnected (s : BridgeState) (conn : Nat) : BridgeState × List DiscEvent :=
  if s.currentConn = some conn then
    ({ s with sendBrakeOnDisconnect := true, currentConn := none,
              nusSendBackoffUntilMs := 0 },
      [DiscEvent.armLatch, DiscEvent.clearRef, DiscEvent.clearBackoff,
        DiscEvent.submitAdv])
  else (s, [DiscEvent.submitAdv])

/-- The 11-byte NUS telemetry message built in `main`: bytes 0–3 echo
`rx_buffer[0..3]`, bytes 4–9 are the three distances big-endian
(`(uint8_t)(d >> 8)`, `(uint8_t)(d & 0xFF)`), byte 10 is
`(rx[1]+rx[2]+rx[3]+buf[4]+buf[5]+buf[6]+buf[7]+buf[8]+buf[9]) & 0xFF`. -/
def nusMsg (rx : Frame) (d0 d1 d2 : Nat) : List Byte :=
  let b4 := d0 / 256 % 256
  let b5 := d0 % 256
  let b6 := d1 / 256 % 256
  let b7 := d1 % 256
  let b8 := d2 / 256 % 256
  let b9 := d2 % 256
  [rx 0, rx 1, rx 2, rx 3, b4, b5, b6, b7, b8, b9,
    (rx 1 + rx 2 + rx 3 + b4 + b5 + b6 + b7 + b8 + b9) % 256]

/-- The telemetry block of the main loop (`main.c` lines 306–355): signature
check on `rx_buffer[0..1]`, checksum warning, peer check, rate gate
(`!in_backoff && rate_ok`), send, and the success/failure bookkeeping on
`last_nus_send_ms` / `nus_send_backoff_until_ms`. -/
def telemetryRelay (s : BridgeState) (now d0 d1 d2 : Nat) (rx : Frame)
    (nusErr : Int) : BridgeState × List Event :=
  if rx 0 = 0xA5 ∧ rx 1 = 0x60 then
    let checksum := (rx 1 + rx 2 + rx 3) % 256
    let warnEv : List Event :=
      if rx 4 = checksum then [] else [Event.warnChecksum]
    match s.currentConn with
    | none => (s, warnEv)
    | some _ =>
      if ¬ now < s.nusSendBackoffUntilMs ∧
          NUS_SEND_INTERVAL_MS ≤ u32sub now s.lastNusSendMs then
        let msg := nusMsg rx d0 d1 d2
        if nusErr = 0 then
          ({ s with lastNusSendMs := now, nusSendBackoffUntilMs := 0 },
            warnEv ++ [Event.nusSend msg])
        else
          ({ s with nusSendBackoffUntilMs := (now + NUS_SEND_BACKOFF_MS) % 2 ^ 32 },
            warnEv ++ [Event.nusSend msg])
      else (s, warnEv)
  else (s, [])

/-- `k_msgq_get(&ble_msgq, tx_buffer, K_MSEC(1000))`: a nonempty queue yields
its head; an empty queue times out and the buffer is zeroed. -/
def dequeueFrame (s : BridgeState) : Frame × List Frame :=
  match s.msgq with
  | f :: rest => (f, rest)
  | [] => (zeroFrame, [])

/-- One iteration of the bridge main loop (`main.c` lines 265–360): dequeue
(or zero on timeout), failsafe substitution for each latch (clearing it),
DRDY assert, SPI transceive, DRDY deassert, the telemetry relay block, and
the final `ret < 0` warning.  `now`, the distances, the SPI status, the SPI
receive buffer contents and the `bt_nus_send` result are inputs from the
environment.  Returns the new state and the ordered event trace. -/
def loopIter (s : BridgeState) (now d0 d1 d2 : Nat) (spiStatus : Int)
    (rx : Frame) (nusErr : Int) : BridgeState × List Event :=
  let deq := dequeueFrame s
  let tx1 := if s.sendBrakeOnDisconnect then brakeFrame else deq.1
  let tx2 := if s.sendBrakeOnQueueFull then brakeFrame else tx1
  let s1 := { s with msgq := deq.2, sendBrakeOnDisconnect := false,
                     sendBrakeOnQueueFull := false }
  let rel := telemetryRelay s1 now d0 d1 d2 rx nusErr
  ({ rel.1 with drdy := false },
    Event.drdySet true :: Event.spiStart tx2 :: Event.drdySet false ::
      (rel.2 ++ if spiStatus < 0 then [Event.warnSpi] else []))

/-- Inputs one bridge-loop iteration consumes from the environment. -/
structure LoopInput where
  now : Nat
  d0 : Nat
  d1 : Nat
  d2 : Nat
  spiStatus : Int
  rx : Frame
  nusErr : Int

/-- Run the bridge loop over a list of per-iteration inputs, concatenating
the event traces. -/
def loopRun (s : BridgeState) : List LoopInput → BridgeState × List Event
  | [] => (s, [])
  | i :: rest =>
    let step := loopIter s i.now i.d0 i.d1 i.d2 i.spiStatus i.rx i.nusErr
    let tail := loopRun step.1 rest
    (tail.1, step.2 ++ tail.2)

/-- The SPI frames transmitted in a trace. -/
def sentFrames (tr : List Event) : List Frame :=
  tr.filterMap fun e => match e with | Event.spiStart f => some f | _ => none

/-- The NUS messages sent in a trace. -/
def sentMsgs (tr : List Event) : List (List Byte) :=
  tr.filterMap fun e => match e with | Event.nusSend m => some m | _ => none

/-- The DRDY line writes in a trace, in order. -/
def drdyWrites (tr : List Event) : List Bool :=
  tr.filterMap fun e => match e with | Event.drdySet b => some b | _ => none

/-- Number of checksum-mismatch warnings in a trace. -/
def checksumWarns (tr : List Event) : Nat :=
  (tr.filterMap fun e =>
    match e with | Event.warnChecksum => some () | _ => none).length

/-- Position of the first occurrence of a `DiscEvent` in a trace. -/
def discPos (tr : List DiscEvent) (a : DiscEvent) : Nat :=
  tr.findIdx fun e => decide (e = a)

/-! ### Helper lemmas about the trace extractors -/

@[simp] theorem sentMsgs_nil : sentMsgs [] = [] := rfl

@[simp] theorem sentMsgs_append (a b : List Event) :
    sentMsgs (a ++ b) = sentMsgs a ++ sentMsgs b := by
  simp [sentMsgs]

@[simp] theorem sentMsgs_cons_drdy (b : Bool) (tr : List Event) :
    sentMsgs (Event.drdySet b :: tr) = sentMsgs tr := rfl

@[simp] theorem sentMsgs_cons_spi (f : Frame) (tr : List Event) :
    sentMsgs (Event.spiStart f :: tr) = sentMsgs tr := rfl

@[simp] theorem sentMsgs_cons_warn (tr : List Event) :
    sentMsgs (Event.warnChecksum :: tr) = sentMsgs tr := rfl

@[simp] theorem sentMsgs_cons_warnSpi (tr : List Event) :
    sentMsgs (Event.warnSpi :: tr) = sentMsgs tr := rfl

@[simp] theorem sentMsgs_cons_send (m : List Byte) (tr : List Event) :
    sentMsgs (Event.nusSend m :: tr) = m :: sentMsgs tr := rfl

@[simp] theorem sentFrames_nil : sentFrames [] = [] := rfl

@[simp] theorem sentFrames_append (a b : List Event) :
    sentFrames (a ++ b) = sentFrames a ++ sentFrames b := by
  simp [sentFrames]

@[simp] theorem sentFrames_cons_drdy (b : Bool) (tr : List Event) :
    sentFrames (Event.drdySet b :: tr) = sentFrames tr := rfl

@[simp] theorem sentFrames_cons_spi (f : Frame) (tr : List Event) :
    sentFrames (Event.spiStart f :: tr) = f :: sentFrames tr := rfl

@[simp] theorem sentFrames_cons_warn (tr : List Event) :
    sentFrames (Event.warnChecksum :: tr) = sentFrames tr := rfl

@[simp] theorem sentFrames_cons_warnSpi (tr : List Event) :
    sentFrames (Event.warnSpi :: tr) = sentFrames tr := rfl

@[simp] theorem sentFrames_cons_send (m : List Byte) (tr : List Event) :
    sentFrames (Event.nusSend m :: tr) = sentFrames tr := rfl

@[simp] theorem drdyWrites_nil : drdyWrites [] = [] := rfl

@[simp] theorem drdyWrites_append (a b : List Event) :
    drdyWrites (a ++ b) = drdyWrites a ++ drdyWrites b := by
  simp [drdyWrites]

@[simp] theorem drdyWrites_cons_drdy (b : Bool) (tr : List Event) :
    drdyWrites (Event.drdySet b :: tr) = b :: drdyWrites tr := rfl

@[simp] theorem drdyWrites_cons_spi (f : Frame) (tr : List Event) :
    drdyWrites (Event.spiStart f :: tr) = drdyWrites tr := rfl

@[simp] theorem drdyWrites_cons_warn (tr : List Event) :
    drdyWrites (Event.warnChecksum :: tr) = drdyWrites tr := rfl

@[simp] theorem drdyWrites_cons_warnSpi (tr : List Event) :
    drdyWrites (Event.warnSpi :: tr) = drdyWrites tr := rfl

@[simp] theorem drdyWrites_cons_send (m : List Byte) (tr : List Event) :
    drdyWrites (Event.nusSend m :: tr) = drdyWrites tr := rfl

@[simp] theorem checksumWarns_nil : checksumWarns [] = 0 := rfl

@[simp] theorem checksumWarns_append (a b : List Event) :
    checksumWarns (a ++ b) = checksumWarns a + checksumWarns b := by
  simp [checksumWarns]

@[simp] theorem checksumWarns_cons_drdy (b : Bool) (tr : List Event) :
    checksumWarns (Event.drdySet b :: tr) = checksumWarns tr := rfl

@[simp] theorem checksumWarns_cons_spi (f : Frame) (tr : List Event) :
    checksumWarns (Event.spiStart f :: tr) = checksumWarns tr := rfl

@[simp] theorem checksumWarns_cons_warn (tr : List Event) :
    checksumWarns (Event.warnChecksum :: tr) = checksumWarns tr + 1 := by
  simp [checksumWarns]

@[simp] theorem checksumWarns_cons_warnSpi (tr : List Event) :
    checksumWarns (Event.warnSpi :: tr) = checksumWarns tr := rfl

@[simp] theorem checksumWarns_cons_send (m : List Byte) (tr : List Event) :
    checksumWarns (Event.nusSend m :: tr) = checksumWarns tr := rfl

theorem u32sub_eq_sub (a b : Nat) (hb : b ≤ a) (ha : a < 2 ^ 32) :
    u32sub a b = a - b := by
  unfold u32sub
  omega

/-! ### Characterizations of the telemetry relay block -/

/-- The rate-limiter gate of the relay: not in backoff and at least
`NUS_SEND_INTERVAL_MS` since the last successful send (uint32 arithmetic). -/
def relayGate (s : BridgeState) (now : Nat) : Prop :=
  ¬ now < s.nusSendBackoffUntilMs ∧
    NUS_SEND_INTERVAL_MS ≤ u32sub now s.lastNusSendMs

instance (s : BridgeState) (now : Nat) : Decidable (relayGate s now) := by
  unfold relayGate; infer_instance

theorem telemetryRelay_sentMsgs (s : BridgeState) (now d0 d1 d2 : Nat)
    (rx : Frame) (nusErr : Int) :
    sentMsgs (telemetryRelay s now d0 d1 d2 rx nusErr).2 =
      if rx 0 = 0xA5 ∧ rx 1 = 0x60 ∧ s.currentConn ≠ none ∧ relayGate s now
      then [nusMsg rx d0 d1 d2] else [] := by
  unfold telemetryRelay relayGate
  rcases h : s.currentConn with _ | c <;> simp only [h] <;> split_ifs <;>
    simp_all [relayGate, h]

theorem telemetryRelay_drdyWrites (s : BridgeState) (now d0 d1 d2 : Nat)
    (rx : Frame) (nusErr : Int) :
    drdyWrites (telemetryRelay s now d0 d1 d2 rx nusErr).2 = [] := by
  unfold telemetryRelay
  rcases h : s.currentConn with _ | c <;> simp only [h] <;> split_ifs <;>
    simp_all

theorem telemetryRelay_conn (s : BridgeState) (now d0 d1 d2 : Nat)
    (rx : Frame) (nusErr : Int) :
    (telemetryRelay s now d0 d1 d2 rx nusErr).1.currentConn = s.currentConn := by
  unfold telemetryRelay
  rcases h : s.currentConn with _ | c <;> simp only [h] <;> split_ifs <;>
    simp_all [h]

/-- The state a bridge-loop iteration hands to its telemetry block: queue
tail taken, both failsafe latches consumed. -/
def postSpiState (s : BridgeState) : BridgeState :=
  { s with msgq := (dequeueFrame s).2, sendBrakeOnDisconnect := false,
           sendBrakeOnQueueFull := false }

theorem loopIter_sentMsgs (s : BridgeState) (now d0 d1 d2 : Nat)
    (spiStatus : Int) (rx : Frame) (nusErr : Int) :
    sentMsgs (loopIter s now d0 d1 d2 spiStatus rx nusErr).2 =
      sentMsgs (telemetryRelay (postSpiState s) now d0 d1 d2 rx nusErr).2 := by
  simp only [loopIter, postSpiState, sentMsgs_cons_drdy, sentMsgs_cons_spi,
    sentMsgs_append]
  split <;> simp

theorem loopIter_state (s : BridgeState) (now d0 d1 d2 : Nat)
    (spiStatus : Int) (rx : Frame) (nusErr : Int) :
    (loopIter s now d0 d1 d2 spiStatus rx nusErr).1 =
      { (telemetryRelay (postSpiState s) now d0 d1 d2 rx nusErr).1 with
          drdy := false } := by
  simp [loopIter, postSpiState]

/-! ### Concrete states and frames used by witnesses -/

/-- A bridge state with a connected peer, an empty queue, clear latches and an
idle rate limiter. -/
def demoState : BridgeState :=
  { msgq := [], currentConn := some 1, sendBrakeOnDisconnect := false,
    sendBrakeOnQueueFull := false, lastNusSendMs := 0,
    nusSendBackoffUntilMs := 0, drdy := false }

/-- The wired-received telemetry frame `{0xA5, 0x60, 0x01, 0x02, 0x63, 0, ...}`
of the spec's concrete example (0x63 is the matching checksum). -/
def rxDemo : Frame := fun i =>
  if i.val = 0 then 0xA5 else if i.val = 1 then 0x60
  else if i.val = 2 then 0x01 else if i.val = 3 then 0x02
  else if i.val = 4 then 0x63 else 0

/-- Well-formedness of the enriched telemetry message in the amended sense:
11 bytes, the first 4 echo the received frame, bytes 4–9 hold the three
distances big-endian, and byte 10 is the sum of bytes 1 through 9 of the
message, modulo 256. -/
def enrichedWellFormed (m : List Byte) (rx : Frame) (d0 d1 d2 : Nat) : Prop :=
  m.length = 11 ∧
  m.take 4 = [rx 0, rx 1, rx 2, rx 3] ∧
  m.getD 4 0 * 256 + m.getD 5 0 = d0 ∧
  m.getD 6 0 * 256 + m.getD 7 0 = d1 ∧
  m.getD 8 0 * 256 + m.getD 9 0 = d2 ∧
  m.getD 10 0 = (m.getD 1 0 + m.getD 2 0 + m.getD 3 0 + m.getD 4 0 + m.getD 5 0 +
    m.getD 6 0 + m.getD 7 0 + m.getD 8 0 + m.getD 9 0) % 256

/-- C1 counterexample: for the input frame `{0xA5,0x60,0x01,0x02,0x63}` and
samples `{1000, 2000, 3000}`, with a peer connected and the rate gate
permitting, the relay emits exactly one message, namely
`{0xA5,0x60,0x01,0x02,0x03,0xE8,0x07,0xD0,0x0B,0xB8,0xE8}`.  Its trailing
byte is `0xE8 = 232`, whereas the sum of bytes 2..9 of that message modulo
256 is `0x88 = 136` (reading byte positions 1-indexed instead gives
`0x30 = 48`), so the trailing checksum byte is not the sum of bytes 2
through 9 as the claim states. -/
theorem c1_counterexample :
    sentMsgs (loopIter demoState 100 1000 2000 3000 0 rxDemo 0).2 =
      [[0xA5, 0x60, 0x01, 0x02, 0x03, 0xE8, 0x07, 0xD0, 0x0B, 0xB8, 0xE8]] ∧
    (0x01 + 0x02 + 0x03 + 0xE8 + 0x07 + 0xD0 + 0x0B + 0xB8) % 256 = 0x88 ∧
    (0x60 + 0x01 + 0x02 + 0x03 + 0xE8 + 0x07 + 0xD0 + 0x0B) % 256 = 0x30 ∧
    (0xE8 : Nat) ≠ 0x88 ∧ (0xE8 : Nat) ≠ 0x30 :=
  ⟨by decide, by decide, by decide, by decide, by decide⟩

/-- C1 (amended): for every wired-received frame whose first two bytes are
`{0xA5, 0x60}`, when a peer is connected and the rate gate permits, the relay
emits exactly one 11-byte message: the first 4 bytes of the received frame,
then the three ranging samples as big-endian 16-bit values, then one trailing
checksum byte equal to the sum of bytes **1 through 9** of that message modulo
256 (the claim said bytes 2 through 9). -/
theorem c1_amended (s : BridgeState) (now d0 d1 d2 : Nat) (spiStatus : Int)
    (rx : Frame) (nusErr : Int) (c : Nat)
    (hconn : s.currentConn = some c)
    (hbk : ¬ now < s.nusSendBackoffUntilMs)
    (hrate : NUS_SEND_INTERVAL_MS ≤ u32sub now s.lastNusSendMs)
    (h0 : rx 0 = 0xA5) (h1 : rx 1 = 0x60)
    (hd0 : d0 < 65536) (hd1 : d1 < 65536) (hd2 : d2 < 65536) :
    sentMsgs (loopIter s now d0 d1 d2 spiStatus rx nusErr).2 =
      [nusMsg rx d0 d1 d2] ∧
    enrichedWellFormed (nusMsg rx d0 d1 d2) rx d0 d1 d2 := by
  constructor
  · rw [loopIter_sentMsgs, telemetryRelay_sentMsgs]
    exact if_pos ⟨h0, h1, by simp [postSpiState, hconn], ⟨hbk, hrate⟩⟩
  · refine ⟨rfl, rfl, ?_, ?_, ?_, ?_⟩
    · show d0 / 256 % 256 * 256 + d0 % 256 = d0
      omega
    · show d1 / 256 % 256 * 256 + d1 % 256 = d1
      omega
    · show d2 / 256 % 256 * 256 + d2 % 256 = d2
      omega
    · rfl

/-- C1 witness: the amended theorem applied at the concrete example of the
spec, with every hypothesis discharged by evaluation. -/
theorem c1_witness :
    (demoState.currentConn = some 1 ∧ rxDemo 0 = 0xA5 ∧ rxDemo 1 = 0x60 ∧
      ¬ (100 : Nat) < demoState.nusSendBackoffUntilMs ∧
      NUS_SEND_INTERVAL_MS ≤ u32sub 100 demoState.lastNusSendMs) ∧
    sentMsgs (loopIter demoState 100 1000 2000 3000 0 rxDemo 0).2 =
      [nusMsg rxDemo 1000 2000 3000] ∧
    enrichedWellFormed (nusMsg rxDemo 1000 2000 3000) rxDemo 1000 2000 3000 :=
  ⟨⟨rfl, rfl, rfl, by decide, by decide⟩,
    c1_amended demoState 100 1000 2000 3000 0 rxDemo 0 1 rfl (by decide)
      (by decide) rfl rfl (by decide) (by decide) (by decide)⟩

/-- C2 counterexample: at a concrete state whose current peer is connection 1,
the `disconnected` callback for connection 1 produces the trace
`[armLatch, clearRef, clearBackoff, submitAdv]`: the disconnect failsafe latch
is armed first (`send_brake_on_disconnect = true` at `main.c:139`) and the
peer reference is cleared after it (`current_conn = NULL` at `main.c:141`),
so the peer reference is *not* cleared strictly before the latch is armed as
the claim states. -/
theorem c2_counterexample :
    (disconnected demoState 1).2 =
      [DiscEvent.armLatch, DiscEvent.clearRef, DiscEvent.clearBackoff,
        DiscEvent.submitAdv] ∧
    ¬ discPos (disconnected demoState 1).2 DiscEvent.clearRef <
        discPos (disconnected demoState 1).2 DiscEvent.armLatch :=
  ⟨by decide, by decide⟩

/-- C2 (amended): on every disconnect event for the current peer, the
disconnect failsafe latch is armed first and the peer reference is cleared
immediately afterwards — in that order — and both happen before re-advertising
is triggered; when the handler returns the peer reference is null, so the
telemetry relay can never observe a stale peer reference. -/
theorem c2_amended (s : BridgeState) (conn : Nat)
    (h : s.currentConn = some conn) :
    (disconnected s conn).2 =
      [DiscEvent.armLatch, DiscEvent.clearRef, DiscEvent.clearBackoff,
        DiscEvent.submitAdv] ∧
    discPos (disconnected s conn).2 DiscEvent.armLatch <
      discPos (disconnected s conn).2 DiscEvent.clearRef ∧
    discPos (disconnected s conn).2 DiscEvent.clearRef <
      discPos (disconnected s conn).2 DiscEvent.submitAdv ∧
    (disconnected s conn).1.currentConn = none := by
  have ht : (disconnected s conn).2 =
      [DiscEvent.armLatch, DiscEvent.clearRef, DiscEvent.clearBackoff,
        DiscEvent.submitAdv] := by
    simp [disconnected, h]
  have hs : (disconnected s conn).1.currentConn = none := by
    simp [disconnected, h]
  refine ⟨ht, ?_, ?_, hs⟩ <;> rw [ht] <;> decide

/-- C2 witness: the amended theorem applied at a concrete state whose current
peer is connection 1. -/
theorem c2_witness :
    demoState.currentConn = some 1 ∧
    ((disconnected demoState 1).2 =
      [DiscEvent.armLatch, DiscEvent.clearRef, DiscEvent.clearBackoff,
        DiscEvent.submitAdv] ∧
    discPos (disconnected demoState 1).2 DiscEvent.armLatch <
      discPos (disconnected demoState 1).2 DiscEvent.clearRef ∧
    discPos (disconnected demoState 1).2 DiscEvent.clearRef <
      discPos (disconnected demoState 1).2 DiscEvent.submitAdv ∧
    (disconnected demoState 1).1.currentConn = none) :=
  ⟨rfl, c2_amended demoState 1 rfl⟩

/-! ### The transmitted SPI frame of one iteration -/

/-- The frame a bridge-loop iteration transmits: the dequeued (or zeroed)
buffer, overwritten by the brake frame when either failsafe latch is set
(`main.c` lines 272–293). -/
def txFrame (s : BridgeState) : Frame :=
  if s.sendBrakeOnQueueFull then brakeFrame
  else if s.sendBrakeOnDisconnect then brakeFrame
  else (dequeueFrame s).1

theorem telemetryRelay_sentFrames (s : BridgeState) (now d0 d1 d2 : Nat)
    (rx : Frame) (nusErr : Int) :
    sentFrames (telemetryRelay s now d0 d1 d2 rx nusErr).2 = [] := by
  unfold telemetryRelay
  rcases h : s.currentConn with _ | c <;> simp only [h] <;> split_ifs <;>
    simp_all

theorem loopIter_sentFrames (s : BridgeState) (now d0 d1 d2 : Nat)
    (spiStatus : Int) (rx : Frame) (nusErr : Int) :
    sentFrames (loopIter s now d0 d1 d2 spiStatus rx nusErr).2 = [txFrame s] := by
  simp only [loopIter, txFrame, sentFrames_cons_drdy, sentFrames_cons_spi,
    sentFrames_append, telemetryRelay_sentFrames]
  split_ifs <;> simp

theorem txFrame_brake (s : BridgeState)
    (h : s.sendBrakeOnDisconnect = true ∨ s.sendBrakeOnQueueFull = true) :
    txFrame s = brakeFrame := by
  unfold txFrame
  rcases h with h | h <;> split_ifs <;> simp_all

theorem loopIter_conn (s : BridgeState) (now d0 d1 d2 : Nat)
    (spiStatus : Int) (rx : Frame) (nusErr : Int) :
    (loopIter s now d0 d1 d2 spiStatus rx nusErr).1.currentConn =
      s.currentConn := by
  rw [loopIter_state]
  show (telemetryRelay (postSpiState s) now d0 d1 d2 rx nusErr).1.currentConn =
    s.currentConn
  rw [telemetryRelay_conn]
  rfl

theorem loopIter_sentMsgs_none (s : BridgeState) (now d0 d1 d2 : Nat)
    (spiStatus : Int) (rx : Frame) (nusErr : Int)
    (h : s.currentConn = none) :
    sentMsgs (loopIter s now d0 d1 d2 spiStatus rx nusErr).2 = [] := by
  rw [loopIter_sentMsgs, telemetryRelay_sentMsgs]
  simp [postSpiState, h]

theorem loopRun_conn_none (s : BridgeState) (l : List LoopInput)
    (h : s.currentConn = none) :
    (loopRun s l).1.currentConn = none ∧ sentMsgs (loopRun s l).2 = [] := by
  induction l generalizing s with
  | nil => exact ⟨h, rfl⟩
  | cons i rest ih =>
    have hstep := loopIter_conn s i.now i.d0 i.d1 i.d2 i.spiStatus i.rx i.nusErr
    have hmsgs := loopIter_sentMsgs_none s i.now i.d0 i.d1 i.d2 i.spiStatus
      i.rx i.nusErr h
    have hrec := ih ((loopIter s i.now i.d0 i.d1 i.d2 i.spiStatus i.rx
      i.nusErr).1) (by rw [hstep, h])
    simp only [loopRun]
    exact ⟨hrec.1, by simp [hmsgs, hrec.2]⟩

/-- A concrete environment input for one bridge-loop iteration. -/
def demoInput : LoopInput :=
  { now := 100, d0 := 1000, d1 := 2000, d2 := 3000, spiStatus := 0,
    rx := rxDemo, nusErr := 0 }

/-- C3: after a disconnect event for the current peer, the next bridge-loop
iteration transmits the canonical stop frame exactly once on the wired link
(its trace contains exactly one SPI transmission and it carries `brakeFrame`),
regardless of what was dequeued or queued, and every telemetry-relay attempt
from that iteration onward sees a null peer reference — no NUS message is
sent in that iteration or in any later iteration — until a connect event
supplies a new peer. -/
theorem c3_stop_frame_and_null_peer (s : BridgeState) (conn : Nat)
    (h : s.currentConn = some conn) (i : LoopInput) (rest : List LoopInput) :
    sentFrames (loopIter (disconnected s conn).1 i.now i.d0 i.d1 i.d2
        i.spiStatus i.rx i.nusErr).2 = [brakeFrame] ∧
    sentMsgs (loopIter (disconnected s conn).1 i.now i.d0 i.d1 i.d2
        i.spiStatus i.rx i.nusErr).2 = [] ∧
    (loopIter (disconnected s conn).1 i.now i.d0 i.d1 i.d2
        i.spiStatus i.rx i.nusErr).1.currentConn = none ∧
    (loopRun (loopIter (disconnected s conn).1 i.now i.d0 i.d1 i.d2
        i.spiStatus i.rx i.nusErr).1 rest).1.currentConn = none ∧
    sentMsgs (loopRun (loopIter (disconnected s conn).1 i.now i.d0 i.d1 i.d2
        i.spiStatus i.rx i.nusErr).1 rest).2 = [] := by
  have hlatch : (disconnected s conn).1.sendBrakeOnDisconnect = true := by
    simp [disconnected, h]
  have hnone : (disconnected s conn).1.currentConn = none := by
    simp [disconnected, h]
  have hframes := loopIter_sentFrames (disconnected s conn).1 i.now i.d0 i.d1
    i.d2 i.spiStatus i.rx i.nusErr
  have htx := txFrame_brake (disconnected s conn).1 (Or.inl hlatch)
  have hmsgs := loopIter_sentMsgs_none (disconnected s conn).1 i.now i.d0 i.d1
    i.d2 i.spiStatus i.rx i.nusErr hnone
  have hconn2 : (loopIter (disconnected s conn).1 i.now i.d0 i.d1 i.d2
      i.spiStatus i.rx i.nusErr).1.currentConn = none := by
    rw [loopIter_conn, hnone]
  have hrun := loopRun_conn_none ((loopIter (disconnected s conn).1 i.now i.d0
    i.d1 i.d2 i.spiStatus i.rx i.nusErr).1) rest hconn2
  exact ⟨by rw [hframes, htx], hmsgs, hconn2, hrun.1, hrun.2⟩

/-- C3 witness: the theorem applied at a concrete connected state, with one
further iteration after the disconnect one. -/
theorem c3_witness :
    demoState.currentConn = some 1 ∧
    sentFrames (loopIter (disconnected demoState 1).1 demoInput.now
        demoInput.d0 demoInput.d1 demoInput.d2 demoInput.spiStatus
        demoInput.rx demoInput.nusErr).2 = [brakeFrame] ∧
    sentMsgs (loopRun (loopIter (disconnected demoState 1).1 demoInput.now
        demoInput.d0 demoInput.d1 demoInput.d2 demoInput.spiStatus
        demoInput.rx demoInput.nusErr).1 [demoInput]).2 = [] :=
  ⟨rfl,
    (c3_stop_frame_and_null_peer demoState 1 rfl demoInput [demoInput]).1,
    (c3_stop_frame_and_null_peer demoState 1 rfl demoInput [demoInput]).2.2.2.2⟩

theorem telemetryRelay_sent_state (s : BridgeState) (now d0 d1 d2 : Nat)
    (rx : Frame) (nusErr : Int) (c : Nat)
    (h0 : rx 0 = 0xA5) (h1 : rx 1 = 0x60) (hconn : s.currentConn = some c)
    (hgate : relayGate s now) :
    (telemetryRelay s now d0 d1 d2 rx nusErr).1 =
      if nusErr = 0 then
        { s with lastNusSendMs := now, nusSendBackoffUntilMs := 0 }
      else
        { s with nusSendBackoffUntilMs :=
            (now + NUS_SEND_BACKOFF_MS) % 2 ^ 32 } := by
  unfold telemetryRelay
  simp only [hconn]
  rw [if_pos ⟨h0, h1⟩, if_pos ⟨hgate.1, hgate.2⟩]
  split <;> simp

/-- C4: a relay send attempt is performed only when `now` is at or past the
backoff deadline and at least `NUS_SEND_INTERVAL_MS` (50 ms) has elapsed since
the last successful send; a successful send sets the last-send timestamp to
`now` and clears the backoff, while a failed send sets the backoff deadline to
`now + NUS_SEND_BACKOFF_MS` (3000 ms) and leaves the last-send timestamp
unchanged. -/
theorem c4_rate_limiter (s : BridgeState) (now d0 d1 d2 : Nat)
    (spiStatus : Int) (rx : Frame) (nusErr : Int) (c : Nat)
    (hconn : s.currentConn = some c)
    (hsig0 : rx 0 = 0xA5) (hsig1 : rx 1 = 0x60)
    (hlast : s.lastNusSendMs ≤ now)
    (hbound : now + NUS_SEND_BACKOFF_MS < 2 ^ 32) :
    (sentMsgs (loopIter s now d0 d1 d2 spiStatus rx nusErr).2 ≠ [] ↔
      s.nusSendBackoffUntilMs ≤ now ∧
        NUS_SEND_INTERVAL_MS ≤ now - s.lastNusSendMs) ∧
    (s.nusSendBackoffUntilMs ≤ now →
      NUS_SEND_INTERVAL_MS ≤ now - s.lastNusSendMs → nusErr = 0 →
      (loopIter s now d0 d1 d2 spiStatus rx nusErr).1.lastNusSendMs = now ∧
      (loopIter s now d0 d1 d2 spiStatus rx nusErr).1.nusSendBackoffUntilMs
        = 0) ∧
    (s.nusSendBackoffUntilMs ≤ now →
      NUS_SEND_INTERVAL_MS ≤ now - s.lastNusSendMs → nusErr ≠ 0 →
      (loopIter s now d0 d1 d2 spiStatus rx nusErr).1.nusSendBackoffUntilMs
          = now + NUS_SEND_BACKOFF_MS ∧
      (loopIter s now d0 d1 d2 spiStatus rx nusErr).1.lastNusSendMs
          = s.lastNusSendMs) := by
  have hnow : now < 2 ^ 32 := by
    have : (0 : Nat) < NUS_SEND_BACKOFF_MS := by decide
    omega
  have hsub : u32sub now s.lastNusSendMs = now - s.lastNusSendMs :=
    u32sub_eq_sub now s.lastNusSendMs hlast hnow
  have hgiff : relayGate (postSpiState s) now ↔
      (s.nusSendBackoffUntilMs ≤ now ∧
        NUS_SEND_INTERVAL_MS ≤ now - s.lastNusSendMs) := by
    unfold relayGate postSpiState
    simp [hsub, Nat.not_lt]
  have hconn2 : (postSpiState s).currentConn = some c := hconn
  refine ⟨?_, ?_, ?_⟩
  · rw [loopIter_sentMsgs, telemetryRelay_sentMsgs]
    by_cases hg : relayGate (postSpiState s) now
    · rw [if_pos ⟨hsig0, hsig1, by simp [postSpiState, hconn], hg⟩]
      simpa using hgiff.mp hg
    · rw [if_neg fun hc => hg hc.2.2.2]
      simpa using fun hcontra => hg (hgiff.mpr hcontra)
  · intro hbk hrate hok
    have hg : relayGate (postSpiState s) now := hgiff.mpr ⟨hbk, hrate⟩
    rw [loopIter_state, telemetryRelay_sent_state (postSpiState s) now d0 d1 d2
      rx nusErr c hsig0 hsig1 hconn2 hg]
    rw [if_pos hok]
    exact ⟨rfl, rfl⟩
  · intro hbk hrate hfail
    have hg : relayGate (postSpiState s) now := hgiff.mpr ⟨hbk, hrate⟩
    rw [loopIter_state, telemetryRelay_sent_state (postSpiState s) now d0 d1 d2
      rx nusErr c hsig0 hsig1 hconn2 hg]
    rw [if_neg hfail]
    refine ⟨?_, rfl⟩
    show (now + NUS_SEND_BACKOFF_MS) % 2 ^ 32 = now + NUS_SEND_BACKOFF_MS
    exact Nat.mod_eq_of_lt hbound

/-- C4 witness: at a concrete state 100 ms after boot with an idle limiter,
the gate permits, and a failed send sets the backoff deadline to 3100 ms. -/
theorem c4_witness :
    (demoState.currentConn = some 1 ∧ demoState.lastNusSendMs ≤ 100 ∧
      (100 : Nat) + NUS_SEND_BACKOFF_MS < 2 ^ 32) ∧
    (sentMsgs (loopIter demoState 100 1000 2000 3000 0 rxDemo 7).2 ≠ [] ↔
      demoState.nusSendBackoffUntilMs ≤ 100 ∧
        NUS_SEND_INTERVAL_MS ≤ 100 - demoState.lastNusSendMs) ∧
    (loopIter demoState 100 1000 2000 3000 0 rxDemo 7).1.nusSendBackoffUntilMs
      = 100 + NUS_SEND_BACKOFF_MS :=
  ⟨⟨rfl, by decide, by decide⟩,
    (c4_rate_limiter demoState 100 1000 2000 3000 0 rxDemo 7 1 rfl rfl rfl
      (by decide) (by decide)).1,
    ((c4_rate_limiter demoState 100 1000 2000 3000 0 rxDemo 7 1 rfl rfl rfl
      (by decide) (by decide)).2.2 (by decide) (by decide) (by decide)).1⟩

/-- C5: in every bridge-loop iteration, the trace starts with the ready-signal
asserted, then the wired transaction, then the ready-signal deasserted, and no
further ready-signal write follows; the iteration ends with the ready-signal
deasserted, for every SPI status including errors. -/
theorem c5_drdy_handshake (s : BridgeState) (now d0 d1 d2 : Nat)
    (spiStatus : Int) (rx : Frame) (nusErr : Int) :
    (∃ tx rest,
      (loopIter s now d0 d1 d2 spiStatus rx nusErr).2 =
        Event.drdySet true :: Event.spiStart tx :: Event.drdySet false ::
          rest ∧
      drdyWrites rest = []) ∧
    (loopIter s now d0 d1 d2 spiStatus rx nusErr).1.drdy = false := by
  refine ⟨⟨_, _, rfl, ?_⟩, rfl⟩
  rw [drdyWrites_append, telemetryRelay_drdyWrites]
  split <;> rfl

/-- C6: whenever a failsafe latch triggers substitution, the transmitted
128-byte frame is exactly `brakeFrame`: two back-to-back 3-byte commands
`{0xA5, id, id}` — M1 brake `{0xA5, 0x32, 0x32}` and M2 brake
`{0xA5, 0x42, 0x42}` — with the checksum byte equal to the repeated command
id and all remaining bytes zero. -/
theorem c6_stop_frame_layout (s : BridgeState) (now d0 d1 d2 : Nat)
    (spiStatus : Int) (rx : Frame) (nusErr : Int)
    (h : s.sendBrakeOnDisconnect = true ∨ s.sendBrakeOnQueueFull = true) :
    sentFrames (loopIter s now d0 d1 d2 spiStatus rx nusErr).2 =
      [brakeFrame] ∧
    brakeFrame 0 = 0xA5 ∧ brakeFrame 1 = CMD_M1_BRAKE ∧
    brakeFrame 2 = brakeFrame 1 ∧ brakeFrame 3 = 0xA5 ∧
    brakeFrame 4 = CMD_M2_BRAKE ∧ brakeFrame 5 = brakeFrame 4 ∧
    ∀ i : Fin 128, 6 ≤ i.val → brakeFrame i = 0 := by
  refine ⟨?_, by decide, by decide, by decide, by decide, by decide, by decide,
    by decide⟩
  rw [loopIter_sentFrames, txFrame_brake s h]

/-- A concrete state with the queue-overflow latch armed. -/
def overflowState : BridgeState :=
  { demoState with sendBrakeOnQueueFull := true }

/-- C6 witness: the theorem applied at a concrete state with the
queue-overflow latch armed. -/
theorem c6_witness :
    overflowState.sendBrakeOnQueueFull = true ∧
    sentFrames (loopIter overflowState 100 1000 2000 3000 0 rxDemo 0).2 =
      [brakeFrame] :=
  ⟨rfl, (c6_stop_frame_layout overflowState 100 1000 2000 3000 0 rxDemo 0
    (Or.inr rfl)).1⟩

/-- C7: a push onto a full inbound queue is rejected — the queue is unchanged
and the producer merely sets the queue-overflow failsafe latch — and the next
bridge-loop iteration transmits the canonical stop frame even though
legitimate frames are still queued. -/
theorem c7_full_queue_push (s : BridgeState) (data : List Byte)
    (now d0 d1 d2 : Nat) (spiStatus : Int) (rx : Frame) (nusErr : Int)
    (h : s.msgq.length = MSGQ_CAPACITY) :
    bt_receive_cb s data = { s with sendBrakeOnQueueFull := true } ∧
    (bt_receive_cb s data).msgq = s.msgq ∧
    sentFrames (loopIter (bt_receive_cb s data) now d0 d1 d2 spiStatus rx
      nusErr).2 = [brakeFrame] := by
  have hcb : bt_receive_cb s data = { s with sendBrakeOnQueueFull := true } := by
    unfold bt_receive_cb
    rw [if_neg (by omega)]
  refine ⟨hcb, by rw [hcb], ?_⟩
  rw [loopIter_sentFrames, txFrame_brake]
  rw [hcb]
  exact Or.inr rfl

/-- A concrete state whose inbound queue is full (32 queued frames). -/
def fullQueueState : BridgeState :=
  { demoState with msgq := List.replicate 32 zeroFrame }

/-- C7 witness: the theorem applied at a concrete full-queue state. -/
theorem c7_witness :
    fullQueueState.msgq.length = MSGQ_CAPACITY ∧
    (bt_receive_cb fullQueueState [1, 2, 3]).msgq = fullQueueState.msgq ∧
    sentFrames (loopIter (bt_receive_cb fullQueueState [1, 2, 3]) 100 1000
      2000 3000 0 rxDemo 0).2 = [brakeFrame] :=
  ⟨by simp [fullQueueState, MSGQ_CAPACITY, demoState],
    (c7_full_queue_push fullQueueState [1, 2, 3] 100 1000 2000 3000 0 rxDemo 0
      (by simp [fullQueueState, MSGQ_CAPACITY, demoState])).2.1,
    (c7_full_queue_push fullQueueState [1, 2, 3] 100 1000 2000 3000 0 rxDemo 0
      (by simp [fullQueueState, MSGQ_CAPACITY, demoState])).2.2⟩

theorem loopIter_checksumWarns (s : BridgeState) (now d0 d1 d2 : Nat)
    (spiStatus : Int) (rx : Frame) (nusErr : Int) :
    checksumWarns (loopIter s now d0 d1 d2 spiStatus rx nusErr).2 =
      checksumWarns (telemetryRelay (postSpiState s) now d0 d1 d2 rx
        nusErr).2 := by
  simp only [loopIter, postSpiState, checksumWarns_cons_drdy,
    checksumWarns_cons_spi, checksumWarns_append]
  split <;> simp

theorem telemetryRelay_warns (s : BridgeState) (now d0 d1 d2 : Nat)
    (rx : Frame) (nusErr : Int) (h0 : rx 0 = 0xA5) (h1 : rx 1 = 0x60) :
    checksumWarns (telemetryRelay s now d0 d1 d2 rx nusErr).2 =
      if rx 4 = (rx 1 + rx 2 + rx 3) % 256 then 0 else 1 := by
  unfold telemetryRelay
  rw [if_pos ⟨h0, h1⟩]
  rcases h : s.currentConn with _ | c <;> split_ifs <;> simp_all

/-- C8: for every wired-received frame matching the telemetry signature
`{0xA5, 0x60}`, exactly one checksum warning is emitted iff byte 4 differs
from the sum of bytes 1 through 3 modulo 256; the relayed output is decided
solely by the peer presence and the rate gate — the frame is forwarded
through enrichment and relay whether or not the checksum matched. -/
theorem c8_checksum_diagnostic_only (s : BridgeState) (now d0 d1 d2 : Nat)
    (spiStatus : Int) (rx : Frame) (nusErr : Int)
    (h0 : rx 0 = 0xA5) (h1 : rx 1 = 0x60) :
    (checksumWarns (loopIter s now d0 d1 d2 spiStatus rx nusErr).2 =
      if rx 4 = (rx 1 + rx 2 + rx 3) % 256 then 0 else 1) ∧
    (sentMsgs (loopIter s now d0 d1 d2 spiStatus rx nusErr).2 =
      if s.currentConn ≠ none ∧ relayGate s now
      then [nusMsg rx d0 d1 d2] else []) := by
  constructor
  · rw [loopIter_checksumWarns,
      telemetryRelay_warns (postSpiState s) now d0 d1 d2 rx nusErr h0 h1]
  · rw [loopIter_sentMsgs, telemetryRelay_sentMsgs]
    by_cases hc : s.currentConn ≠ none ∧ relayGate s now
    · rw [if_pos ⟨h0, h1, hc.1, hc.2⟩, if_pos hc]
    · rw [if_neg fun hx => hc ⟨hx.2.2.1, hx.2.2.2⟩, if_neg hc]

/-- C8 witness: the theorem applied at a concrete frame with a mismatched
checksum byte (0x64 instead of 0x63), which still gets relayed. -/
def rxBadChecksum : Frame := fun i =>
  if i.val = 0 then 0xA5 else if i.val = 1 then 0x60
  else if i.val = 2 then 0x01 else if i.val = 3 then 0x02
  else if i.val = 4 then 0x64 else 0

theorem c8_witness :
    (rxBadChecksum 0 = 0xA5 ∧ rxBadChecksum 1 = 0x60) ∧
    (checksumWarns (loopIter demoState 100 1000 2000 3000 0 rxBadChecksum
        0).2 =
      if rxBadChecksum 4 = (rxBadChecksum 1 + rxBadChecksum 2 +
        rxBadChecksum 3) % 256 then 0 else 1) ∧
    (sentMsgs (loopIter demoState 100 1000 2000 3000 0 rxBadChecksum 0).2 =
      if demoState.currentConn ≠ none ∧ relayGate demoState 100
      then [nusMsg rxBadChecksum 1000 2000 3000] else []) :=
  ⟨⟨rfl, rfl⟩,
    c8_checksum_diagnostic_only demoState 100 1000 2000 3000 0 rxBadChecksum 0
      rfl rfl⟩

/-- C9: a disconnect event for the current peer resets the send backoff to 0
(besides arming the latch and clearing the reference), so a pending backoff
from a failed send to the old peer never suppresses the first relay attempt
after a reconnection; a disconnect of any other connection leaves the bridge
state unchanged. -/
theorem c9_disconnect_resets_backoff (s : BridgeState) (conn : Nat) :
    (s.currentConn = some conn →
      (disconnected s conn).1.nusSendBackoffUntilMs = 0 ∧
      (disconnected s conn).1.sendBrakeOnDisconnect = true ∧
      (disconnected s conn).1.currentConn = none ∧
      (disconnected s conn).1.msgq = s.msgq ∧
      (disconnected s conn).1.lastNusSendMs = s.lastNusSendMs) ∧
    (s.currentConn ≠ some conn → (disconnected s conn).1 = s) := by
  constructor
  · intro h
    simp [disconnected, h]
  · intro h
    simp [disconnected, h]

/-- A concrete state in backoff (a send to peer 1 failed at time 100). -/
def backoffState : BridgeState :=
  { demoState with nusSendBackoffUntilMs := 3100 }

/-- C9 witness: disconnecting the current peer of a state in backoff resets
the backoff to 0; disconnecting a different connection changes nothing. -/
theorem c9_witness :
    (backoffState.currentConn = some 1 ∧ backoffState.currentConn ≠ some 2) ∧
    (disconnected backoffState 1).1.nusSendBackoffUntilMs = 0 ∧
    (disconnected backoffState 2).1 = backoffState :=
  ⟨⟨rfl, by decide⟩,
    ((c9_disconnect_resets_backoff backoffState 1).1 rfl).1,
    (c9_disconnect_resets_backoff backoffState 2).2 (by decide)⟩

/-- C10: the final bridge state of an iteration does not depend on the SPI
transaction status at all, and the trace for any status equals the trace for
status 0 followed (when the status is negative) by the warning event — i.e.
the telemetry match/validate/relay step runs on the receive buffer before the
status is checked, so a failed transaction's receive buffer is still
relayed. -/
theorem c10_relay_ignores_spi_status (s : BridgeState) (now d0 d1 d2 : Nat)
    (rx : Frame) (nusErr : Int) (spiStatus : Int) :
    (loopIter s now d0 d1 d2 spiStatus rx nusErr).1 =
      (loopIter s now d0 d1 d2 0 rx nusErr).1 ∧
    (loopIter s now d0 d1 d2 spiStatus rx nusErr).2 =
      (loopIter s now d0 d1 d2 0 rx nusErr).2 ++
        (if spiStatus < 0 then [Event.warnSpi] else []) := by
  constructor
  · rw [loopIter_state, loopIter_state]
  · simp only [loopIter]
    split <;> simp
